import Mathlib

/-!
Verification of the database-connection core of the scripts-support library:
the shared `DatabaseConnection` contract (src/db/base.py) and its two
backends `SQLiteConnection` (src/db/sqlite.py) and `MySQLConnection`
(src/db/mysql.py).

The embedding is a shallow one.  Python dictionaries become association
lists (Python dicts preserve insertion order), SQL values become a small
`Value` type, and every driver-facing operation is embedded as a pure
function that returns the successor state, the ordered list of observable
events it performed (identifier checks, SQL strings built by interpolation,
driver calls), and an `Except` result mirroring raise/return.  Driver
responses (query results, row counts, last-insert ids) are supplied by a
`World` record, since the claims under verification only concern the
library's own behaviour, not the behaviour of SQLite or MySQL themselves.
-/

/-- SQL cell values as used by the library: NULL, integers and strings. -/
inductive Value
  | null
  | int (i : Int)
  | str (s : String)
deriving DecidableEq, Repr

/-- A Python dict used as a row / filter set / parameter set: an ordered
association list from column name to value. -/
abbrev Dict := List (String × Value)

/-- A row mapping, same shape as a filter dict. -/
abbrev Row := Dict

/-- Tabular result (the rows of a pandas DataFrame). -/
abbrev Df := List Row

/-- Keys of a dict, in insertion order (Python dict.keys()). -/
def Dict.keys (d : Dict) : List String := d.map (·.1)

/-- Python truthiness of an optional string: None and the empty string are
falsy, every other string is truthy. -/
def pyTruthyStr : Option String → Bool
  | none => false
  | some s => s ≠ ""

/-- Errors raised by the library: plain ValueError for validation failures,
DatabaseError (code, message) for wrapped driver failures. -/
inductive Err
  | valueError (msg : String)
  | dbError (code : String) (msg : String)
deriving DecidableEq, Repr

/-- SQLite isolation levels accepted by sqlite3.connect. -/
inductive Iso
  | deferred
  | immediate
  | exclusive
  | autocommit
deriving DecidableEq, Repr

/-- Observable events of one operation, in program order.
The `validate` event records one identifier being checked against the
identifier pattern; `buildSql` records a SQL string being assembled, with
the list of table/column identifiers interpolated into it; the remaining
constructors are driver calls. -/
inductive Event
  | validate (id : String)
  | buildSql (sql : String) (ids : List String)
  | connect (iso : Iso)
  | connectEngine
  | reflectTable (t : String)
  | execute (sql : String)
  | executemany (sql : String) (n : Nat)
  | readSql (sql : String)
  | fetchone
  | fetchall
  | insertStmt (t : String) (n : Nat)
  | updateStmt (t : String)
  | deleteStmt (t : String)
  | commit
  | rollback
  | close
  | callRollback
  | callDisconnect
deriving DecidableEq, Repr

/-- Does the event reach the driver (any I/O), as opposed to the pure
validation / string-building work done before the driver is touched? -/
def Event.isDriverCall : Event → Bool
  | .validate _ => false
  | .buildSql _ _ => false
  | .callRollback => false
  | .callDisconnect => false
  | _ => true

/-- The identifiers interpolated into a built SQL string (empty for every
non-buildSql event). -/
def Event.builtIds : Event → List String
  | .buildSql _ ids => ids
  | _ => []

/-- Is the event a buildSql event? -/
def Event.isBuild : Event → Bool
  | .buildSql _ _ => true
  | _ => false

/-- Is the event the opening of a fresh sqlite3 connection? -/
def Event.isConnect : Event → Bool
  | .connect _ => true
  | _ => false

/-- Convenience: an Except value that is a raised ValueError. -/
def Except.isValueErr {α : Type} : Except Err α → Bool
  | .error (.valueError _) => true
  | _ => false

namespace DatabaseConnection

/-- First character class of the identifier pattern: a letter or underscore. -/
def isIdentStart (c : Char) : Bool := c.isAlpha || c = '_'

/-- Remaining character class: letter, digit or underscore. -/
def isIdentChar (c : Char) : Bool := c.isAlphanum || c = '_'

/-- Core of the pattern [a-zA-Z_][a-zA-Z0-9_]* applied to a whole string. -/
def identCore : List Char → Bool
  | [] => false
  | c :: cs => isIdentStart c && cs.all isIdentChar

/-- Embeds DatabaseConnection._is_valid_identifier (src/db/base.py):
bool(re.compile(r"^[a-zA-Z_][a-zA-Z0-9_]*$").match(identifier)).
Python re anchors the dollar at the end of the string OR just before a
single newline that terminates the string, so the compiled pattern also
accepts ident ++ "\n"; the embedding reproduces that. -/
def is_valid_identifier (s : String) : Bool :=
  identCore s.data || (identCore s.data.dropLast && s.data.getLast? = some '\n')

/-- Modelled from the spec: the identifier language as the spec states it,
the anchored pattern ^[A-Za-z_][A-Za-z0-9_]*$ read as plain regular-language
matching (starts with a letter or underscore, remainder alphanumeric or
underscore only).  Kept separate from the source embedding above so the two
can be compared. -/
def specIdentifierPattern (s : String) : Bool := identCore s.data

/-- Embeds DatabaseConnection._validate_identifiers: checks each identifier
in order and raises ValueError at the first invalid one.  Each performed
check is recorded as a validate event. -/
def validate_identifiers : List String → List Event × Except Err Unit
  | [] => ([], .ok ())
  | id :: rest =>
    if is_valid_identifier id then
      let r := validate_identifiers rest
      (.validate id :: r.1, r.2)
    else
      ([.validate id],
       .error (.valueError ("Invalid SQL identifier: " ++ id ++ ". Only alphanumeric characters and underscores allowed.")))

/-- Consecutive _validate_identifiers calls, as the CRUD operations issue
them group by group (table name, then each dict's keys). -/
def validate_groups : List (List String) → List Event × Except Err Unit
  | [] => ([], .ok ())
  | g :: gs =>
    let v := validate_identifiers g
    match v.2 with
    | .error e => (v.1, .error e)
    | .ok _ =>
      let r := validate_groups gs
      (v.1 ++ r.1, r.2)

/-- Embeds DatabaseConnection.__init__: the primary-key column is validated
only when truthy (None and the empty string skip validation). -/
def db_init (primary_key_column : Option String) : Except Err (Option String) :=
  if pyTruthyStr primary_key_column
      && !is_valid_identifier (primary_key_column.getD "") then
    .error (.valueError ("Invalid primary key column name: " ++ primary_key_column.getD ""))
  else
    .ok primary_key_column

end DatabaseConnection

/-- Driver responses for one operation: the rows a read returns, the row
count the cursor reports for a DML statement, the last-insert id the MySQL
driver reports, and the scalar fetched by the SQLite MAX(pk) probe
(none models SQL NULL on an empty table). -/
structure World where
  query : String → List Value → Df
  rowcount : Int
  lastrowid : Int
  maxPk : Option Int

/-- Attribute state of a SQLiteConnection object: db_connection (with the
isolation level it was opened with), db_cursor, and a counter supplying
fresh driver handle ids. -/
structure SQLiteState where
  conn : Option (Nat × Iso)
  cursor : Option Nat
  counter : Nat
deriving DecidableEq, Repr

/-- Attribute state of a MySQLConnection object: the SQLAlchemy engine
handle and a counter supplying fresh engine ids. -/
structure MySQLState where
  engine : Option Nat
  counter : Nat
deriving DecidableEq, Repr

namespace SQLiteConnection

/-- Embeds SQLiteConnection._connect_db: if both the connection and the
cursor are live, returns the existing handle with no driver activity;
otherwise opens a fresh sqlite3 connection with the requested isolation
level, enables foreign keys and creates a cursor. -/
def connect_db (st : SQLiteState) (iso : Iso) : SQLiteState × List Event × Nat :=
  match st.conn, st.cursor with
  | some (h, _), some _ => (st, [], h)
  | _, _ =>
    let h := st.counter
    (⟨some (h, iso), some (h + 1), st.counter + 2⟩,
     [.connect iso, .execute "PRAGMA foreign_keys = ON"], h)

/-- Embeds SQLiteConnection._disconnect_db: closes and clears the handles
when a connection is live, does nothing otherwise (close errors are
swallowed). -/
def disconnect_db (st : SQLiteState) : SQLiteState × List Event :=
  match st.conn with
  | some _ => (⟨none, none, st.counter⟩, [.callDisconnect, .close])
  | none => (st, [.callDisconnect])

/-- Embeds SQLiteConnection._rollback: rolls back only when a connection
is live. -/
def rollback_tx (st : SQLiteState) : SQLiteState × List Event :=
  match st.conn with
  | some _ => (st, [.callRollback, .rollback])
  | none => (st, [.callRollback])

/-- Embeds DatabaseConnection.__exit__ as specialised to this backend:
rollback when an exception is propagating, then disconnect, then return
False so the exception keeps propagating. -/
def ctx_exit (st : SQLiteState) (excPropagating : Bool) :
    SQLiteState × List Event × Bool :=
  let r := if excPropagating then rollback_tx st else (st, [])
  let d := disconnect_db r.1
  (d.1, r.2 ++ d.2, false)

end SQLiteConnection

namespace MySQLConnection

/-- Embeds MySQLConnection._connect_db: returns the existing engine when
one is live, otherwise creates a fresh SQLAlchemy engine. -/
def connect_db (st : MySQLState) : MySQLState × List Event × Nat :=
  match st.engine with
  | some h => (st, [], h)
  | none => (⟨some st.counter, st.counter + 1⟩, [.connectEngine], st.counter)

/-- Embeds MySQLConnection._disconnect_db: disposes the engine when one is
live (disposal errors swallowed) and always clears the handle. -/
def disconnect_db (st : MySQLState) : MySQLState × List Event :=
  match st.engine with
  | some _ => (⟨none, st.counter⟩, [.callDisconnect, .close])
  | none => (st, [.callDisconnect])

/-- Embeds MySQLConnection._rollback: rolls back only when an engine is
live. -/
def rollback_tx (st : MySQLState) : MySQLState × List Event :=
  match st.engine with
  | some _ => (st, [.callRollback, .rollback])
  | none => (st, [.callRollback])

/-- Embeds DatabaseConnection.__exit__ as specialised to this backend. -/
def ctx_exit (st : MySQLState) (excPropagating : Bool) :
    MySQLState × List Event × Bool :=
  let r := if excPropagating then rollback_tx st else (st, [])
  let d := disconnect_db r.1
  (d.1, r.2 ++ d.2, false)

end MySQLConnection

/-- The WHERE clause text built from a filter dict: None values render as
IS NULL, every other value renders as an equality against the backend's
placeholder token (? for sqlite, %s for pymysql). -/
def where_clause_str (ph : String) (fs : Dict) : String :=
  String.intercalate " AND "
    (fs.map (fun p =>
      match p.2 with
      | .null => p.1 ++ " IS NULL"
      | _ => p.1 ++ " = " ++ ph))

/-- The bound parameters of a filter dict, in order, skipping None values
(they were rendered as IS NULL, not as placeholders). -/
def where_params (fs : Dict) : List Value :=
  fs.filterMap (fun p =>
    match p.2 with
    | .null => none
    | v => some v)

/-- The optional ORDER BY clause of the select builders: the caller's raw
clause text is appended unvalidated (the documented trust boundary), and
only when the string is truthy. -/
def order_clause (q : String) : Option String → String × List Event
  | some o =>
    if o ≠ "" then
      (q ++ " ORDER BY " ++ o, [Event.buildSql (q ++ " ORDER BY " ++ o) []])
    else (q, [])
  | none => (q, [])

/-- The optional LIMIT clause of the select builders: a negative limit is
rejected with ValueError, any other integer (zero included) is appended. -/
def limit_clause (q : String) : Option Int → List Event × Except Err String
  | none => ([], .ok q)
  | some l =>
    if l < 0 then ([], .error (.valueError "limit must be a non-negative integer"))
    else ([Event.buildSql (q ++ " LIMIT " ++ toString l) []],
          .ok (q ++ " LIMIT " ++ toString l))

/-- Tail of the select builders: ORDER BY then LIMIT, threading the
accumulated event list through. -/
def select_tail (acc : List Event) (q : String) (ps : List Value)
    (order_by : Option String) (limit : Option Int) :
    List Event × Except Err (String × List Value) :=
  let ob := order_clause q order_by
  let lc := limit_clause ob.1 limit
  (acc ++ ob.2 ++ lc.1, lc.2.map (fun q2 => (q2, ps)))

/-- The validation and SQL-building phase shared verbatim by
SQLiteConnection.select and MySQLConnection.select (they differ only in
the placeholder token): validates the table name, then the explicit column
list when present, builds the base SELECT string, then validates the
filter keys and extends the string with the WHERE, ORDER BY and LIMIT
clauses. -/
def select_build (ph : String) (t : String) (cols : List String) (fs : Dict)
    (order_by : Option String) (limit : Option Int) :
    List Event × Except Err (String × List Value) :=
  let v1 := DatabaseConnection.validate_identifiers [t]
  match v1.2 with
  | .error e => (v1.1, .error e)
  | .ok _ =>
    let v2 :=
      if cols.isEmpty then ([], Except.ok ())
      else DatabaseConnection.validate_identifiers cols
    match v2.2 with
    | .error e => (v1.1 ++ v2.1, .error e)
    | .ok _ =>
      let columns_str := if cols.isEmpty then "*" else String.intercalate "," cols
      let q0 := "SELECT " ++ columns_str ++ " FROM " ++ t
      let tb0 := v1.1 ++ v2.1 ++ [Event.buildSql q0 (t :: cols)]
      if fs.isEmpty then
        select_tail tb0 q0 [] order_by limit
      else
        let v3 := DatabaseConnection.validate_identifiers (Dict.keys fs)
        match v3.2 with
        | .error e => (tb0 ++ v3.1, .error e)
        | .ok _ =>
          let q1 := q0 ++ " WHERE " ++ where_clause_str ph fs
          select_tail (tb0 ++ v3.1 ++ [Event.buildSql q1 (Dict.keys fs)])
            q1 (where_params fs) order_by limit

/-- Set equality of two key lists (Python compares set(row.keys())). -/
def sameKeySet (a b : List String) : Bool :=
  a.all (b.contains ·) && b.all (a.contains ·)

/-- The union of the rows' column names, first occurrence order (the
source collects them in a Python set; only membership matters). -/
def unionKeys (rows : List Row) : List String :=
  ((rows.map Dict.keys).flatten).dedup

/-- Every row has the same key set as the first row. -/
def rowsConsistent (rows : List Row) : Bool :=
  match rows with
  | [] => true
  | r0 :: _ => rows.all (fun r => sameKeySet (Dict.keys r) (Dict.keys r0))

/-- The validation phase shared verbatim by both insert implementations:
reject an empty row list, validate the table name, validate the union of
the rows' columns, then reject rows whose key sets differ. -/
def insert_checks (t : String) (rows : List Row) : List Event × Except Err Unit :=
  if rows.isEmpty then ([], .error (.valueError "rows cannot be empty"))
  else
    let v := DatabaseConnection.validate_groups [[t], unionKeys rows]
    match v.2 with
    | .error e => (v.1, .error e)
    | .ok _ =>
      if rowsConsistent rows then (v.1, .ok ())
      else (v.1, .error (.valueError "All rows must have the same columns"))

/-- The validation phase shared verbatim by both update implementations:
reject empty parameters or filters, then validate the table name, the
parameter keys and the filter keys. -/
def update_checks (t : String) (ps fs : Dict) : List Event × Except Err Unit :=
  if ps.isEmpty || fs.isEmpty then
    ([], .error (.valueError "parameters and filters cannot be empty"))
  else
    DatabaseConnection.validate_groups [[t], Dict.keys ps, Dict.keys fs]

/-- The validation phase of both delete implementations; the two backends
word the empty-filter message differently, so it is a parameter. -/
def delete_checks (emptyMsg : String) (t : String) (fs : Dict) :
    List Event × Except Err Unit :=
  if fs.isEmpty then ([], .error (.valueError emptyMsg))
  else DatabaseConnection.validate_groups [[t], Dict.keys fs]

/-- Python (max_id or 0): None and 0 are falsy and give 0, any other
integer gives itself. -/
def pyOrZero : Option Int → Int
  | none => 0
  | some m => if m = 0 then 0 else m

namespace SQLiteConnection

/-- Embeds SQLiteConnection.select.  The driver phase opens the connection
with DEFERRED isolation and reads the built query through pandas. -/
def select (w : World) (st : SQLiteState) (t : String) (cols : List String)
    (fs : Dict) (order_by : Option String) (limit : Option Int) :
    SQLiteState × List Event × Except Err Df :=
  let b := select_build "?" t cols fs order_by limit
  match b.2 with
  | .error e => (st, b.1, .error e)
  | .ok qp =>
    let c := connect_db st .deferred
    (c.1, b.1 ++ c.2.1 ++ [Event.readSql qp.1], .ok (w.query qp.1 qp.2))

/-- The MAX(pk) probe text built by insert. -/
def max_sql (pk t : String) : String :=
  "SELECT MAX(" ++ pk ++ ") FROM " ++ t

/-- The batched INSERT text built by insert. -/
def insert_sql (t : String) (cols : List String) : String :=
  "INSERT INTO " ++ t ++ " (" ++ String.intercalate "," cols ++ ") VALUES ("
    ++ String.intercalate "," (cols.map (fun _ => "?")) ++ ")"

/-- The reselect text built by insert to echo the inserted rows back. -/
def reselect_sql (t pk : String) (n : Nat) : String :=
  "SELECT * FROM " ++ t ++ " WHERE " ++ pk ++ " IN ("
    ++ String.intercalate "," ((List.range n).map (fun _ => "?")) ++ ")"

/-- Embeds SQLiteConnection.insert.  After the shared checks it opens the
connection with IMMEDIATE isolation; when an echo of the inserted rows was
requested and a primary-key column is configured (truthy), it probes
MAX(pk) to derive the first new id, executes one batched insert, commits,
and reselects the contiguous id range; otherwise it just inserts, commits
and returns nothing. -/
def insert (w : World) (st : SQLiteState) (pk : Option String) (t : String)
    (rows : List Row) (return_inserted : Bool) :
    SQLiteState × List Event × Except Err (Option Df) :=
  let ck := insert_checks t rows
  match ck.2 with
  | .error e => (st, ck.1, .error e)
  | .ok _ =>
    let c := connect_db st .immediate
    let doEcho := return_inserted && pyTruthyStr pk
    let maxq := max_sql (pk.getD "") t
    let phase1 : List Event × Option Int :=
      if doEcho then
        ([Event.buildSql maxq [pk.getD "", t], Event.execute maxq, Event.fetchone],
         some (pyOrZero w.maxPk + 1))
      else ([], none)
    let cols := Dict.keys (rows.headD [])
    let insq := insert_sql t cols
    let ins := [Event.buildSql insq (t :: cols),
                Event.executemany insq rows.length, Event.commit]
    match phase1.2 with
    | some firstId =>
      let ids := (List.range rows.length).map (fun k => Value.int (firstId + k))
      let selq := reselect_sql t (pk.getD "") rows.length
      (c.1,
       ck.1 ++ c.2.1 ++ phase1.1 ++ ins
         ++ [Event.buildSql selq [t, pk.getD ""], Event.readSql selq],
       .ok (some (w.query selq ids)))
    | none => (c.1, ck.1 ++ c.2.1 ++ phase1.1 ++ ins, .ok none)

/-- The UPDATE statement and bound parameters built by update: None
parameter values render as literal SET col = NULL, RETURNING * is appended
when the updated rows were requested. -/
def update_sql (t : String) (ps fs : Dict) (return_updated_rows : Bool) :
    String × List Value :=
  let set_str := String.intercalate ", "
    (ps.map (fun p =>
      match p.2 with
      | .null => p.1 ++ " = NULL"
      | _ => p.1 ++ " = ?"))
  let q := "UPDATE " ++ t ++ " SET " ++ set_str ++ " WHERE "
    ++ where_clause_str "?" fs
    ++ (if return_updated_rows then " RETURNING *" else "")
  (q, where_params ps ++ where_params fs)

/-- Embeds SQLiteConnection.update.  After the shared checks it opens the
connection with IMMEDIATE isolation, executes the single UPDATE statement
(with RETURNING * when an echo was requested), fetches the returned rows,
commits, and returns them; with an echo requested and no matching rows the
result is an empty DataFrame, and with no echo requested it is None. -/
def update (w : World) (st : SQLiteState) (t : String) (ps fs : Dict)
    (return_updated_rows : Bool) :
    SQLiteState × List Event × Except Err (Option Df) :=
  let ck := update_checks t ps fs
  match ck.2 with
  | .error e => (st, ck.1, .error e)
  | .ok _ =>
    let c := connect_db st .immediate
    let qp := update_sql t ps fs return_updated_rows
    let fetched := if return_updated_rows then [Event.fetchall] else []
    let tr := ck.1 ++ c.2.1
      ++ [Event.buildSql qp.1 (t :: (Dict.keys ps ++ Dict.keys fs)),
          Event.execute qp.1]
      ++ fetched ++ [Event.commit]
    if return_updated_rows then
      (c.1, tr, .ok (some (w.query qp.1 qp.2)))
    else
      (c.1, tr, .ok none)

/-- The DELETE statement and bound parameters built by delete. -/
def delete_sql (t : String) (fs : Dict) : String × List Value :=
  ("DELETE FROM " ++ t ++ " WHERE " ++ where_clause_str "?" fs, where_params fs)

/-- Embeds SQLiteConnection.delete.  After the shared checks it opens the
connection with IMMEDIATE isolation, executes the DELETE, commits, and
returns the cursor row count. -/
def delete (w : World) (st : SQLiteState) (t : String) (fs : Dict) :
    SQLiteState × List Event × Except Err Int :=
  let ck := delete_checks
    "filters cannot be empty to prevent DELETE without WHERE clause" t fs
  match ck.2 with
  | .error e => (st, ck.1, .error e)
  | .ok _ =>
    let c := connect_db st .immediate
    let qp := delete_sql t fs
    (c.1,
     ck.1 ++ c.2.1
       ++ [Event.buildSql qp.1 (t :: Dict.keys fs), Event.execute qp.1,
           Event.commit],
     .ok w.rowcount)

end SQLiteConnection

namespace MySQLConnection

/-- Embeds MySQLConnection.select: the same validation and SQL building as
the SQLite backend with the %s placeholder, then a read through the
engine. -/
def select (w : World) (st : MySQLState) (t : String) (cols : List String)
    (fs : Dict) (order_by : Option String) (limit : Option Int) :
    MySQLState × List Event × Except Err Df :=
  let b := select_build "%s" t cols fs order_by limit
  match b.2 with
  | .error e => (st, b.1, .error e)
  | .ok qp =>
    let c := connect_db st
    (c.1, b.1 ++ c.2.1 ++ [Event.readSql qp.1], .ok (w.query qp.1 qp.2))

/-- The reselect text built by insert to echo the inserted rows back
(pymysql placeholders joined with a comma and a space). -/
def reselect_sql (t pk : String) (n : Nat) : String :=
  "SELECT * FROM " ++ t ++ " WHERE " ++ pk ++ " IN ("
    ++ String.intercalate ", " ((List.range n).map (fun _ => "%s")) ++ ")"

/-- Embeds MySQLConnection.insert.  After the shared checks it connects,
reflects the table through SQLAlchemy, executes one batched insert and
commits; when an echo was requested and a primary-key column is configured
it takes the driver-reported lastrowid as the first id of the contiguous
range and reselects that range, otherwise it returns nothing. -/
def insert (w : World) (st : MySQLState) (pk : Option String) (t : String)
    (rows : List Row) (return_inserted : Bool) :
    MySQLState × List Event × Except Err (Option Df) :=
  let ck := insert_checks t rows
  match ck.2 with
  | .error e => (st, ck.1, .error e)
  | .ok _ =>
    let c := connect_db st
    let pre := ck.1 ++ c.2.1
      ++ [Event.reflectTable t, Event.insertStmt t rows.length, Event.commit]
    if return_inserted && pyTruthyStr pk then
      let firstId := w.lastrowid
      let ids := (List.range rows.length).map (fun k => Value.int (firstId + k))
      let selq := reselect_sql t (pk.getD "") rows.length
      (c.1, pre ++ [Event.buildSql selq [t, pk.getD ""], Event.readSql selq],
       .ok (some (w.query selq ids)))
    else (c.1, pre, .ok none)

/-- Embeds MySQLConnection.update.  After the shared checks it connects,
reflects the table, executes the expression-built UPDATE and commits; when
an echo was requested and the driver reports a positive row count it
re-runs select with the same filters and returns that result, otherwise it
returns None. -/
def update (w : World) (st : MySQLState) (t : String) (ps fs : Dict)
    (return_updated_rows : Bool) :
    MySQLState × List Event × Except Err (Option Df) :=
  let ck := update_checks t ps fs
  match ck.2 with
  | .error e => (st, ck.1, .error e)
  | .ok _ =>
    let c := connect_db st
    let pre := ck.1 ++ c.2.1
      ++ [Event.reflectTable t, Event.updateStmt t, Event.commit]
    if return_updated_rows && decide (w.rowcount > 0) then
      let s := select w c.1 t [] fs none none
      match s.2.2 with
      | .ok df => (s.1, pre ++ s.2.1, .ok (some df))
      | .error _ =>
        (s.1, pre ++ s.2.1,
         .error (.dbError "UPDATE_ERROR" ("Error updating data in " ++ t)))
    else (c.1, pre, .ok none)

/-- Embeds MySQLConnection.delete.  After the shared checks it connects,
reflects the table, executes the expression-built DELETE, commits, and
returns the driver-reported row count. -/
def delete (w : World) (st : MySQLState) (t : String) (fs : Dict) :
    MySQLState × List Event × Except Err Int :=
  let ck := delete_checks
    "filters cannot be empty (prevents accidental deletion of all records)" t fs
  match ck.2 with
  | .error e => (st, ck.1, .error e)
  | .ok _ =>
    let c := connect_db st
    (c.1,
     ck.1 ++ c.2.1 ++ [Event.reflectTable t, Event.deleteStmt t, Event.commit],
     .ok w.rowcount)

end MySQLConnection

/-- One public CRUD invocation on either backend, with its arguments. -/
inductive OpCall
  | sqliteSelect (t : String) (cols : List String) (fs : Dict)
      (order_by : Option String) (limit : Option Int)
  | sqliteInsert (pk : Option String) (t : String) (rows : List Row)
      (return_inserted : Bool)
  | sqliteUpdate (t : String) (ps fs : Dict) (return_updated_rows : Bool)
  | sqliteDelete (t : String) (fs : Dict)
  | mysqlSelect (t : String) (cols : List String) (fs : Dict)
      (order_by : Option String) (limit : Option Int)
  | mysqlInsert (pk : Option String) (t : String) (rows : List Row)
      (return_inserted : Bool)
  | mysqlUpdate (t : String) (ps fs : Dict) (return_updated_rows : Bool)
  | mysqlDelete (t : String) (fs : Dict)

/-- The table name and every column name appearing in the call's filters,
parameters, rows or explicit column list: the identifiers claim C1 ranges
over. -/
def OpCall.identifiers : OpCall → List String
  | .sqliteSelect t cols fs _ _ => t :: (cols ++ Dict.keys fs)
  | .sqliteInsert _ t rows _ => t :: unionKeys rows
  | .sqliteUpdate t ps fs _ => t :: (Dict.keys ps ++ Dict.keys fs)
  | .sqliteDelete t fs => t :: Dict.keys fs
  | .mysqlSelect t cols fs _ _ => t :: (cols ++ Dict.keys fs)
  | .mysqlInsert _ t rows _ => t :: unionKeys rows
  | .mysqlUpdate t ps fs _ => t :: (Dict.keys ps ++ Dict.keys fs)
  | .mysqlDelete t fs => t :: Dict.keys fs

/-- Run one CRUD invocation against the given states, keeping the event
trace and collapsing the differently-typed results to their error part. -/
def runOp (w : World) (s1 : SQLiteState) (s2 : MySQLState) :
    OpCall → List Event × Except Err Unit
  | .sqliteSelect t cols fs ob lim =>
    let r := SQLiteConnection.select w s1 t cols fs ob lim
    (r.2.1, r.2.2.map (fun _ => ()))
  | .sqliteInsert pk t rows ret =>
    let r := SQLiteConnection.insert w s1 pk t rows ret
    (r.2.1, r.2.2.map (fun _ => ()))
  | .sqliteUpdate t ps fs ret =>
    let r := SQLiteConnection.update w s1 t ps fs ret
    (r.2.1, r.2.2.map (fun _ => ()))
  | .sqliteDelete t fs =>
    let r := SQLiteConnection.delete w s1 t fs
    (r.2.1, r.2.2.map (fun _ => ()))
  | .mysqlSelect t cols fs ob lim =>
    let r := MySQLConnection.select w s2 t cols fs ob lim
    (r.2.1, r.2.2.map (fun _ => ()))
  | .mysqlInsert pk t rows ret =>
    let r := MySQLConnection.insert w s2 pk t rows ret
    (r.2.1, r.2.2.map (fun _ => ()))
  | .mysqlUpdate t ps fs ret =>
    let r := MySQLConnection.update w s2 t ps fs ret
    (r.2.1, r.2.2.map (fun _ => ()))
  | .mysqlDelete t fs =>
    let r := MySQLConnection.delete w s2 t fs
    (r.2.1, r.2.2.map (fun _ => ()))

/-- True when some SQL string is built strictly before the first check of
the given identifier in the trace (or without the identifier ever being
checked at all). -/
def buildsBeforeValidate (tr : List Event) (id : String) : Bool :=
  (tr.takeWhile (fun e => !decide (e = Event.validate id))).any Event.isBuild

/-- Claim C1 exactly as stated: on every CRUD invocation every identifier
among the call's filters, parameters, column lists and table name is
checked against the pattern before any SQL string is built, and an invalid
identifier raises ValueError before any SQL text containing it exists and
before any driver call. -/
def claim1Stated : Prop :=
  ∀ (w : World) (s1 : SQLiteState) (s2 : MySQLState) (c : OpCall),
    ∀ id ∈ OpCall.identifiers c,
      buildsBeforeValidate (runOp w s1 s2 c).1 id = false
      ∧ (DatabaseConnection.is_valid_identifier id = false →
          Except.isValueErr (runOp w s1 s2 c).2 = true
          ∧ ∀ e ∈ (runOp w s1 s2 c).1,
              Event.isDriverCall e = false ∧ id ∉ Event.builtIds e)

/-- A driver world with inert responses, for concrete evaluations. -/
def w0 : World := ⟨fun _ _ => [], 0, 1, none⟩

/-- A fresh, unconnected SQLiteConnection state. -/
def st0 : SQLiteState := ⟨none, none, 0⟩

/-- A fresh, unconnected MySQLConnection state. -/
def my0 : MySQLState := ⟨none, 0⟩

/-- A SQLiteConnection state whose connection is already open with the
default DEFERRED isolation (as left behind by a context-manager entry or a
previous select). -/
def stDeferred : SQLiteState := ⟨some (0, .deferred), some 1, 2⟩

/-- C3 evaluation: the compiled pattern, embedded with Python matching
semantics, accepts the string "a" followed by a newline, while the
language ^[A-Za-z_][A-Za-z0-9_]*$ stated by the claim (and by the
function's own docstring) rejects it. -/
theorem c3_trailing_newline_eval :
    DatabaseConnection.is_valid_identifier "a\n" = true
      ∧ DatabaseConnection.specIdentifierPattern "a\n" = false := by
  constructor <;> decide

namespace DatabaseConnection

theorem validate_identifiers_events (l : List String) :
    ∀ e ∈ (validate_identifiers l).1, ∃ x ∈ l, e = .validate x := by
  induction l with
  | nil => simp [validate_identifiers]
  | cons a rest ih =>
    by_cases h : is_valid_identifier a
    · simp only [validate_identifiers, h, if_true]
      intro e he
      rcases List.mem_cons.mp he with h1 | h1
      · exact ⟨a, List.mem_cons_self a rest, h1⟩
      · rcases ih e h1 with ⟨x, hx, hex⟩
        exact ⟨x, List.mem_cons_of_mem a hx, hex⟩
    · simp only [validate_identifiers, h, if_false]
      intro e he
      rcases List.mem_singleton.mp he with h1
      exact ⟨a, List.mem_cons_self a rest, h1⟩

theorem validate_identifiers_ok_iff (l : List String) :
    (validate_identifiers l).2 = .ok () ↔ ∀ x ∈ l, is_valid_identifier x = true := by
  induction l with
  | nil => simp [validate_identifiers]
  | cons a rest ih =>
    by_cases h : is_valid_identifier a
    · simp [validate_identifiers, h, ih]
    · simp [validate_identifiers, h]

theorem validate_identifiers_shape (l : List String) :
    (validate_identifiers l).2 = .ok () ∨ ((validate_identifiers l).2.isValueErr = true) := by
  induction l with
  | nil => simp [validate_identifiers]
  | cons a rest ih =>
    by_cases h : is_valid_identifier a
    · simpa [validate_identifiers, h] using ih
    · simp [validate_identifiers, h, Except.isValueErr]

theorem validate_identifiers_all_ok (l : List String)
    (h : ∀ x ∈ l, is_valid_identifier x = true) :
    validate_identifiers l = (l.map Event.validate, .ok ()) := by
  induction l with
  | nil => simp [validate_identifiers]
  | cons a rest ih =>
    have ha : is_valid_identifier a = true := h a (List.mem_cons_self a rest)
    have hrest : ∀ x ∈ rest, is_valid_identifier x = true :=
      fun x hx => h x (List.mem_cons_of_mem a hx)
    simp [validate_identifiers, ha, ih hrest]

theorem validate_groups_events (gs : List (List String)) :
    ∀ e ∈ (validate_groups gs).1, ∃ g ∈ gs, ∃ x ∈ g, e = .validate x := by
  induction gs with
  | nil => simp [validate_groups]
  | cons g rest ih =>
    intro e he
    simp only [validate_groups] at he
    cases hv : (validate_identifiers g).2 with
    | error err =>
      rw [hv] at he
      rcases validate_identifiers_events g e he with ⟨x, hx, hex⟩
      exact ⟨g, List.mem_cons_self g rest, x, hx, hex⟩
    | ok u =>
      rw [hv] at he
      simp only [List.mem_append] at he
      rcases he with h1 | h1
      · rcases validate_identifiers_events g e h1 with ⟨x, hx, hex⟩
        exact ⟨g, List.mem_cons_self g rest, x, hx, hex⟩
      · rcases ih e h1 with ⟨g2, hg2, x, hx, hex⟩
        exact ⟨g2, List.mem_cons_of_mem g hg2, x, hx, hex⟩

theorem validate_groups_ok_iff (gs : List (List String)) :
    (validate_groups gs).2 = .ok () ↔ ∀ g ∈ gs, ∀ x ∈ g, is_valid_identifier x = true := by
  induction gs with
  | nil => simp [validate_groups]
  | cons g rest ih =>
    cases hv : (validate_identifiers g).2 with
    | error err =>
      simp only [validate_groups, hv]
      constructor
      · intro h; cases h
      · intro h
        have := (validate_identifiers_ok_iff g).mpr (h g (List.mem_cons_self g rest))
        rw [hv] at this; cases this
    | ok u =>
      have hg : ∀ x ∈ g, is_valid_identifier x = true := by
        have := (validate_identifiers_ok_iff g).mp (by cases u; exact hv)
        exact this
      simp only [validate_groups, hv, ih]
      constructor
      · intro h g2 hg2
        rcases List.mem_cons.mp hg2 with h1 | h1
        · subst h1; exact hg
        · exact h g2 h1
      · intro h g2 hg2
        exact h g2 (List.mem_cons_of_mem g hg2)

theorem validate_groups_shape (gs : List (List String)) :
    (validate_groups gs).2 = .ok () ∨ ((validate_groups gs).2.isValueErr = true) := by
  induction gs with
  | nil => simp [validate_groups]
  | cons g rest ih =>
    cases hv : (validate_identifiers g).2 with
    | error err =>
      rcases validate_identifiers_shape g with h | h
      · rw [hv] at h; cases h
      · rw [hv] at h
        simp only [validate_groups, hv]
        right; exact h
    | ok u =>
      cases u
      simpa [validate_groups, hv] using ih

theorem validate_groups_all_ok (gs : List (List String))
    (h : ∀ g ∈ gs, ∀ x ∈ g, is_valid_identifier x = true) :
    validate_groups gs = ((gs.map (List.map Event.validate)).flatten, .ok ()) := by
  induction gs with
  | nil => simp [validate_groups]
  | cons g rest ih =>
    have hg := validate_identifiers_all_ok g (h g (List.mem_cons_self g rest))
    have hrest : ∀ g2 ∈ rest, ∀ x ∈ g2, is_valid_identifier x = true :=
      fun g2 hg2 => h g2 (List.mem_cons_of_mem g hg2)
    simp [validate_groups, hg, ih hrest]

end DatabaseConnection

open DatabaseConnection in
/-- Mapping a function over an Except result does not change whether it is
a raised ValueError. -/
theorem isValueErr_map {α β : Type} (f : α → β) (x : Except Err α) :
    (x.map f).isValueErr = x.isValueErr := by
  cases x with
  | error e => cases e <;> rfl
  | ok a => rfl

theorem order_clause_events (q : String) (ob : Option String) :
    ∀ e ∈ (order_clause q ob).2, ∃ s, e = Event.buildSql s [] := by
  intro e he
  cases ob with
  | none => simp [order_clause] at he
  | some o =>
    by_cases ho : o = ""
    · simp [order_clause, ho] at he
    · simp only [order_clause, ho, ne_eq, not_false_iff, if_true] at he
      exact ⟨_, by simpa using he⟩

theorem limit_clause_events (q : String) (lim : Option Int) :
    ∀ e ∈ (limit_clause q lim).1, ∃ s, e = Event.buildSql s [] := by
  intro e he
  cases lim with
  | none => simp [limit_clause] at he
  | some l =>
    by_cases hl : l < 0
    · simp [limit_clause, hl] at he
    · simp only [limit_clause, hl, if_false] at he
      exact ⟨_, by simpa using he⟩

theorem limit_clause_shape (q : String) (lim : Option Int) :
    (∃ q2, (limit_clause q lim).2 = .ok q2)
      ∨ (limit_clause q lim).2.isValueErr = true := by
  cases lim with
  | none => exact Or.inl ⟨q, rfl⟩
  | some l =>
    by_cases hl : l < 0
    · right; simp [limit_clause, hl, Except.isValueErr]
    · left
      exact ⟨q ++ " LIMIT " ++ toString l, by simp [limit_clause, hl]⟩

theorem select_tail_events (acc : List Event) (q : String) (ps : List Value)
    (ob : Option String) (lim : Option Int) :
    ∀ e ∈ (select_tail acc q ps ob lim).1,
      e ∈ acc ∨ ∃ s, e = Event.buildSql s [] := by
  intro e he
  simp only [select_tail, List.mem_append] at he
  rcases he with (h | h) | h
  · exact Or.inl h
  · exact Or.inr (order_clause_events _ _ e h)
  · exact Or.inr (limit_clause_events _ _ e h)

theorem select_tail_shape (acc : List Event) (q : String) (ps : List Value)
    (ob : Option String) (lim : Option Int) :
    (∃ qp, (select_tail acc q ps ob lim).2 = .ok qp)
      ∨ (select_tail acc q ps ob lim).2.isValueErr = true := by
  rcases limit_clause_shape (order_clause q ob).1 lim with ⟨q2, h⟩ | h
  · left
    exact ⟨(q2, ps), by simp [select_tail, h, Except.map]⟩
  · right
    simpa [select_tail, isValueErr_map] using h

open DatabaseConnection in
/-- A validate event is not a driver call and interpolates nothing. -/
theorem validate_event_triv {x : String} :
    Event.isDriverCall (.validate x) = false
      ∧ ∀ y ∈ Event.builtIds (.validate x), is_valid_identifier y = true :=
  ⟨rfl, by simp [Event.builtIds]⟩

open DatabaseConnection in
/-- A buildSql event with no interpolated identifiers is not a driver call
and interpolates nothing. -/
theorem build_empty_triv {s : String} :
    Event.isDriverCall (.buildSql s []) = false
      ∧ ∀ y ∈ Event.builtIds (.buildSql s []), is_valid_identifier y = true :=
  ⟨rfl, by simp [Event.builtIds]⟩

open DatabaseConnection in
/-- Every event recorded by the select build phase is pre-driver work, and
every identifier it interpolates into SQL text passed validation. -/
theorem select_build_events (ph t : String) (cols : List String) (fs : Dict)
    (ob : Option String) (lim : Option Int) :
    ∀ e ∈ (select_build ph t cols fs ob lim).1,
      Event.isDriverCall e = false
      ∧ ∀ x ∈ Event.builtIds e, is_valid_identifier x = true := by
  intro e he
  simp only [select_build] at he
  split at he
  next e1 heq1 =>
    rcases validate_identifiers_events [t] e he with ⟨x, _, rfl⟩
    exact validate_event_triv
  next u1 heq1 =>
    have hT : is_valid_identifier t = true := by
      have := (validate_identifiers_ok_iff [t]).mp (by cases u1; exact heq1)
      exact this t (List.mem_singleton_self t)
    split at he
    next e2 heq2 =>
      rcases List.mem_append.mp he with h | h
      · rcases validate_identifiers_events [t] e h with ⟨x, _, rfl⟩
        exact validate_event_triv
      · by_cases hc : cols.isEmpty
        · simp [hc] at heq2 h
        · simp only [hc, if_false] at h
          rcases validate_identifiers_events cols e h with ⟨x, _, rfl⟩
          exact validate_event_triv
    next u2 heq2 =>
      have hC : ∀ x ∈ cols, is_valid_identifier x = true := by
        by_cases hc : cols.isEmpty
        · rw [List.isEmpty_iff] at hc
          subst hc; intro x hx; cases hx
        · simp only [hc, if_false] at heq2
          exact (validate_identifiers_ok_iff cols).mp (by cases u2; exact heq2)
      have hbase :
          ∀ e2 ∈ (DatabaseConnection.validate_identifiers [t]).1
              ++ (if cols.isEmpty then ([], Except.ok ())
                  else DatabaseConnection.validate_identifiers cols).1
              ++ [Event.buildSql ("SELECT "
                    ++ (if cols.isEmpty then "*" else String.intercalate "," cols)
                    ++ " FROM " ++ t) (t :: cols)],
            Event.isDriverCall e2 = false
            ∧ ∀ x ∈ Event.builtIds e2, is_valid_identifier x = true := by
        intro e2 h2
        rcases List.mem_append.mp h2 with h3 | h3
        · rcases List.mem_append.mp h3 with h4 | h4
          · rcases validate_identifiers_events [t] e2 h4 with ⟨x, _, rfl⟩
            exact validate_event_triv
          · by_cases hc : cols.isEmpty
            · simp [hc] at h4
            · simp only [hc, if_false] at h4
              rcases validate_identifiers_events cols e2 h4 with ⟨x, _, rfl⟩
              exact validate_event_triv
        · rcases List.mem_singleton.mp h3 with rfl
          refine ⟨rfl, ?_⟩
          intro x hx
          simp only [Event.builtIds] at hx
          rcases List.mem_cons.mp hx with rfl | hx2
          · exact hT
          · exact hC x hx2
      split at he
      next hfs =>
        rcases select_tail_events _ _ _ _ _ e he with h | ⟨s, rfl⟩
        · exact hbase e h
        · exact build_empty_triv
      next hfs =>
        split at he
        next e3 heq3 =>
          rcases List.mem_append.mp he with h | h
          · exact hbase e h
          · rcases validate_identifiers_events (Dict.keys fs) e h with ⟨x, _, rfl⟩
            exact validate_event_triv
        next u3 heq3 =>
          have hK : ∀ x ∈ Dict.keys fs, is_valid_identifier x = true :=
            (validate_identifiers_ok_iff (Dict.keys fs)).mp (by cases u3; exact heq3)
          rcases select_tail_events _ _ _ _ _ e he with h | ⟨s, rfl⟩
          · rcases List.mem_append.mp h with h2 | h2
            · rcases List.mem_append.mp h2 with h3 | h3
              · exact hbase e h3
              · rcases validate_identifiers_events (Dict.keys fs) e h3 with ⟨x, _, rfl⟩
                exact validate_event_triv
            · rcases List.mem_singleton.mp h2 with rfl
              refine ⟨rfl, ?_⟩
              intro x hx
              simp only [Event.builtIds] at hx
              exact hK x hx
          · exact build_empty_triv

open DatabaseConnection in
/-- An error result is a raised ValueError exactly when the carried error
is a valueError, at any result type. -/
theorem isValueErr_error_iff {α : Type} (e : Err) :
    (Except.error e : Except Err α).isValueErr = true ↔ ∃ m, e = .valueError m := by
  cases e <;> simp [Except.isValueErr]

open DatabaseConnection in
/-- The select build phase either succeeds or raises a ValueError. -/
theorem select_build_shape (ph t : String) (cols : List String) (fs : Dict)
    (ob : Option String) (lim : Option Int) :
    (∃ qp, (select_build ph t cols fs ob lim).2 = .ok qp)
      ∨ (select_build ph t cols fs ob lim).2.isValueErr = true := by
  simp only [select_build]
  split
  next e1 heq1 =>
    right
    rcases validate_identifiers_shape [t] with hok | herr
    · rw [heq1] at hok; cases hok
    · rw [heq1] at herr
      rcases (isValueErr_error_iff e1).mp herr with ⟨m, rfl⟩
      simp [Except.isValueErr]
  next u1 heq1 =>
    split
    next e2 heq2 =>
      right
      by_cases hc : cols.isEmpty
      · simp [hc] at heq2
      · simp [hc] at heq2
        rcases validate_identifiers_shape cols with hok | herr
        · rw [heq2] at hok; cases hok
        · rw [heq2] at herr
          rcases (isValueErr_error_iff e2).mp herr with ⟨m, rfl⟩
          simp [Except.isValueErr]
    next u2 heq2 =>
      split
      next hfs => exact select_tail_shape _ _ _ _ _
      next hfs =>
        split
        next e3 heq3 =>
          right
          rcases validate_identifiers_shape (Dict.keys fs) with hok | herr
          · rw [heq3] at hok; cases hok
          · rw [heq3] at herr
            rcases (isValueErr_error_iff e3).mp herr with ⟨m, rfl⟩
            simp [Except.isValueErr]
        next u3 heq3 => exact select_tail_shape _ _ _ _ _

open DatabaseConnection in
/-- When the select build phase succeeds, the table name, every explicit
column and every filter key passed validation. -/
theorem select_build_ok_valid (ph t : String) (cols : List String) (fs : Dict)
    (ob : Option String) (lim : Option Int)
    (h : ∃ qp, (select_build ph t cols fs ob lim).2 = .ok qp) :
    ∀ id ∈ t :: (cols ++ Dict.keys fs), is_valid_identifier id = true := by
  rcases h with ⟨qp, hok⟩
  simp only [select_build] at hok
  split at hok
  next e1 heq1 => simp at hok
  next u1 heq1 =>
    have hT : is_valid_identifier t = true := by
      have := (validate_identifiers_ok_iff [t]).mp (by cases u1; exact heq1)
      exact this t (List.mem_singleton_self t)
    split at hok
    next e2 heq2 => simp at hok
    next u2 heq2 =>
      have hC : ∀ x ∈ cols, is_valid_identifier x = true := by
        by_cases hc : cols.isEmpty
        · rw [List.isEmpty_iff] at hc
          subst hc; intro x hx; cases hx
        · simp only [hc, if_false] at heq2
          exact (validate_identifiers_ok_iff cols).mp (by cases u2; exact heq2)
      split at hok
      next hfs =>
        rw [List.isEmpty_iff] at hfs
        intro id hid
        rcases List.mem_cons.mp hid with rfl | hid2
        · exact hT
        · rcases List.mem_append.mp hid2 with h3 | h3
          · exact hC id h3
          · rw [hfs] at h3; cases h3
      next hfs =>
        split at hok
        next e3 heq3 => simp at hok
        next u3 heq3 =>
          have hK : ∀ x ∈ Dict.keys fs, is_valid_identifier x = true :=
            (validate_identifiers_ok_iff (Dict.keys fs)).mp (by cases u3; exact heq3)
          intro id hid
          rcases List.mem_cons.mp hid with rfl | hid2
          · exact hT
          · rcases List.mem_append.mp hid2 with h3 | h3
            · exact hC id h3
            · exact hK id h3

open DatabaseConnection in
/-- Every event recorded by the insert validation phase is an identifier
check. -/
theorem insert_checks_events (t : String) (rows : List Row) :
    ∀ e ∈ (insert_checks t rows).1, ∃ x, e = .validate x := by
  intro e he
  simp only [insert_checks] at he
  split at he
  · cases he
  · split at he
    next e1 heq1 =>
      rcases validate_groups_events _ e he with ⟨g, _, x, _, rfl⟩
      exact ⟨x, rfl⟩
    next u1 heq1 =>
      split at he <;>
        { rcases validate_groups_events _ e he with ⟨g, _, x, _, rfl⟩
          exact ⟨x, rfl⟩ }

open DatabaseConnection in
/-- The insert validation phase either succeeds or raises a ValueError. -/
theorem insert_checks_shape (t : String) (rows : List Row) :
    (insert_checks t rows).2 = .ok ()
      ∨ (insert_checks t rows).2.isValueErr = true := by
  simp only [insert_checks]
  split
  · right; simp [Except.isValueErr]
  · split
    next e1 heq1 =>
      rcases validate_groups_shape [[t], unionKeys rows] with hok | herr
      · rw [heq1] at hok; cases hok
      · rw [heq1] at herr
        right
        rcases (isValueErr_error_iff e1).mp herr with ⟨m, rfl⟩
        simp [Except.isValueErr]
    next u1 heq1 =>
      split
      · left; rfl
      · right; simp [Except.isValueErr]

open DatabaseConnection in
/-- When the insert validation phase succeeds, the row list was non-empty,
the table and every row column passed validation, and the rows' key sets
agree. -/
theorem insert_checks_ok (t : String) (rows : List Row)
    (h : (insert_checks t rows).2 = .ok ()) :
    rows.isEmpty = false
      ∧ (∀ id ∈ t :: unionKeys rows, is_valid_identifier id = true)
      ∧ rowsConsistent rows = true := by
  simp only [insert_checks] at h
  split at h
  next hr => cases h
  next hr =>
    split at h
    next e1 heq1 => cases h
    next u1 heq1 =>
      have hv := (validate_groups_ok_iff [[t], unionKeys rows]).mp
        (by cases u1; exact heq1)
      refine ⟨by simpa using hr, ?_, ?_⟩
      · intro id hid
        rcases List.mem_cons.mp hid with rfl | hid2
        · exact hv [id] (by simp) id (List.mem_singleton_self id)
        · exact hv (unionKeys rows) (by simp) id hid2
      · split at h
        next hcons => exact hcons
        next hcons => cases h

open DatabaseConnection in
/-- When the early guards pass, the insert validation phase records the
table check followed by the column checks and succeeds or fails on the
key-set comparison alone. -/
theorem insert_checks_all (t : String) (rows : List Row)
    (hr : rows.isEmpty = false)
    (hv : ∀ id ∈ t :: unionKeys rows, is_valid_identifier id = true) :
    insert_checks t rows
      = (Event.validate t :: (unionKeys rows).map Event.validate,
         if rowsConsistent rows then .ok ()
         else .error (.valueError "All rows must have the same columns")) := by
  have hg : ∀ g ∈ [[t], unionKeys rows], ∀ x ∈ g, is_valid_identifier x = true := by
    intro g hg x hx
    rcases List.mem_cons.mp hg with rfl | hg2
    · rcases List.mem_singleton.mp hx with rfl
      exact hv x (List.mem_cons_self x _)
    · rcases List.mem_singleton.mp hg2 with rfl
      exact hv x (List.mem_cons_of_mem t hx)
  have hall := validate_groups_all_ok [[t], unionKeys rows] hg
  simp only [insert_checks, hr, Bool.false_eq_true, if_false, hall]
  split <;> simp

open DatabaseConnection in
/-- Every event recorded by the update validation phase is an identifier
check. -/
theorem update_checks_events (t : String) (ps fs : Dict) :
    ∀ e ∈ (update_checks t ps fs).1, ∃ x, e = .validate x := by
  intro e he
  simp only [update_checks] at he
  split at he
  · cases he
  · rcases validate_groups_events _ e he with ⟨g, _, x, _, rfl⟩
    exact ⟨x, rfl⟩

open DatabaseConnection in
/-- The update validation phase either succeeds or raises a ValueError. -/
theorem update_checks_shape (t : String) (ps fs : Dict) :
    (update_checks t ps fs).2 = .ok ()
      ∨ (update_checks t ps fs).2.isValueErr = true := by
  simp only [update_checks]
  split
  · right; simp [Except.isValueErr]
  · rcases validate_groups_shape [[t], Dict.keys ps, Dict.keys fs] with hok | herr
    · left; exact hok
    · right; exact herr

open DatabaseConnection in
/-- When the update validation phase succeeds, the parameters and filters
were non-empty and the table, parameter keys and filter keys all passed
validation. -/
theorem update_checks_ok (t : String) (ps fs : Dict)
    (h : (update_checks t ps fs).2 = .ok ()) :
    ps.isEmpty = false ∧ fs.isEmpty = false
      ∧ ∀ id ∈ t :: (Dict.keys ps ++ Dict.keys fs), is_valid_identifier id = true := by
  simp only [update_checks] at h
  split at h
  next hem => cases h
  next hem =>
    have hv := (validate_groups_ok_iff [[t], Dict.keys ps, Dict.keys fs]).mp h
    rcases Bool.or_eq_false_iff.mp (Bool.not_eq_true _ |>.mp hem) with ⟨h1, h2⟩
    refine ⟨h1, h2, ?_⟩
    intro id hid
    rcases List.mem_cons.mp hid with rfl | hid2
    · exact hv [id] (by simp) id (List.mem_singleton_self id)
    · rcases List.mem_append.mp hid2 with h3 | h3
      · exact hv (Dict.keys ps) (by simp) id h3
      · exact hv (Dict.keys fs) (by simp) id h3

open DatabaseConnection in
/-- When the early guards pass and every identifier is valid, the update
validation phase records the checks in order and succeeds. -/
theorem update_checks_all (t : String) (ps fs : Dict)
    (hps : ps.isEmpty = false) (hfs : fs.isEmpty = false)
    (hv : ∀ id ∈ t :: (Dict.keys ps ++ Dict.keys fs), is_valid_identifier id = true) :
    update_checks t ps fs
      = (Event.validate t :: ((Dict.keys ps).map Event.validate
          ++ (Dict.keys fs).map Event.validate), .ok ()) := by
  have hg : ∀ g ∈ [[t], Dict.keys ps, Dict.keys fs], ∀ x ∈ g,
      is_valid_identifier x = true := by
    intro g hg x hx
    rcases List.mem_cons.mp hg with rfl | hg2
    · rcases List.mem_singleton.mp hx with rfl
      exact hv x (List.mem_cons_self x _)
    · rcases List.mem_cons.mp hg2 with rfl | hg3
      · exact hv x (List.mem_cons_of_mem t (List.mem_append_left _ hx))
      · rcases List.mem_singleton.mp hg3 with rfl
        exact hv x (List.mem_cons_of_mem t (List.mem_append_right _ hx))
  have hall := validate_groups_all_ok [[t], Dict.keys ps, Dict.keys fs] hg
  simp [update_checks, hps, hfs, hall]

open DatabaseConnection in
/-- Every event recorded by the delete validation phase is an identifier
check. -/
theorem delete_checks_events (msg t : String) (fs : Dict) :
    ∀ e ∈ (delete_checks msg t fs).1, ∃ x, e = .validate x := by
  intro e he
  simp only [delete_checks] at he
  split at he
  · cases he
  · rcases validate_groups_events _ e he with ⟨g, _, x, _, rfl⟩
    exact ⟨x, rfl⟩

open DatabaseConnection in
/-- The delete validation phase either succeeds or raises a ValueError. -/
theorem delete_checks_shape (msg t : String) (fs : Dict) :
    (delete_checks msg t fs).2 = .ok ()
      ∨ (delete_checks msg t fs).2.isValueErr = true := by
  simp only [delete_checks]
  split
  · right; simp [Except.isValueErr]
  · rcases validate_groups_shape [[t], Dict.keys fs] with hok | herr
    · left; exact hok
    · right; exact herr

open DatabaseConnection in
/-- When the delete validation phase succeeds, the filters were non-empty
and the table and every filter key passed validation. -/
theorem delete_checks_ok (msg t : String) (fs : Dict)
    (h : (delete_checks msg t fs).2 = .ok ()) :
    fs.isEmpty = false
      ∧ ∀ id ∈ t :: Dict.keys fs, is_valid_identifier id = true := by
  simp only [delete_checks] at h
  split at h
  next hem => cases h
  next hem =>
    have hv := (validate_groups_ok_iff [[t], Dict.keys fs]).mp h
    refine ⟨by simpa using hem, ?_⟩
    intro id hid
    rcases List.mem_cons.mp hid with rfl | hid2
    · exact hv [id] (by simp) id (List.mem_singleton_self id)
    · exact hv (Dict.keys fs) (by simp) id hid2

open DatabaseConnection in
/-- When the filters are non-empty and every identifier is valid, the
delete validation phase records the checks in order and succeeds. -/
theorem delete_checks_all (msg t : String) (fs : Dict)
    (hfs : fs.isEmpty = false)
    (hv : ∀ id ∈ t :: Dict.keys fs, is_valid_identifier id = true) :
    delete_checks msg t fs
      = (Event.validate t :: (Dict.keys fs).map Event.validate, .ok ()) := by
  have hg : ∀ g ∈ [[t], Dict.keys fs], ∀ x ∈ g, is_valid_identifier x = true := by
    intro g hg x hx
    rcases List.mem_cons.mp hg with rfl | hg2
    · rcases List.mem_singleton.mp hx with rfl
      exact hv x (List.mem_cons_self x _)
    · rcases List.mem_singleton.mp hg2 with rfl
      exact hv x (List.mem_cons_of_mem t hx)
  have hall := validate_groups_all_ok [[t], Dict.keys fs] hg
  simp [delete_checks, hfs, hall]

theorem sqlite_select_early (w : World) (st : SQLiteState) (t : String)
    (cols : List String) (fs : Dict) (ob : Option String) (lim : Option Int)
    (e : Err) (h : (select_build "?" t cols fs ob lim).2 = .error e) :
    SQLiteConnection.select w st t cols fs ob lim
      = (st, (select_build "?" t cols fs ob lim).1, .error e) := by
  simp [SQLiteConnection.select, h]

theorem mysql_select_early (w : World) (st : MySQLState) (t : String)
    (cols : List String) (fs : Dict) (ob : Option String) (lim : Option Int)
    (e : Err) (h : (select_build "%s" t cols fs ob lim).2 = .error e) :
    MySQLConnection.select w st t cols fs ob lim
      = (st, (select_build "%s" t cols fs ob lim).1, .error e) := by
  simp [MySQLConnection.select, h]

theorem sqlite_insert_early (w : World) (st : SQLiteState) (pk : Option String)
    (t : String) (rows : List Row) (ret : Bool) (e : Err)
    (h : (insert_checks t rows).2 = .error e) :
    SQLiteConnection.insert w st pk t rows ret
      = (st, (insert_checks t rows).1, .error e) := by
  simp [SQLiteConnection.insert, h]

theorem mysql_insert_early (w : World) (st : MySQLState) (pk : Option String)
    (t : String) (rows : List Row) (ret : Bool) (e : Err)
    (h : (insert_checks t rows).2 = .error e) :
    MySQLConnection.insert w st pk t rows ret
      = (st, (insert_checks t rows).1, .error e) := by
  simp [MySQLConnection.insert, h]

theorem sqlite_update_early (w : World) (st : SQLiteState) (t : String)
    (ps fs : Dict) (ret : Bool) (e : Err)
    (h : (update_checks t ps fs).2 = .error e) :
    SQLiteConnection.update w st t ps fs ret
      = (st, (update_checks t ps fs).1, .error e) := by
  simp [SQLiteConnection.update, h]

theorem mysql_update_early (w : World) (st : MySQLState) (t : String)
    (ps fs : Dict) (ret : Bool) (e : Err)
    (h : (update_checks t ps fs).2 = .error e) :
    MySQLConnection.update w st t ps fs ret
      = (st, (update_checks t ps fs).1, .error e) := by
  simp [MySQLConnection.update, h]

theorem sqlite_delete_early (w : World) (st : SQLiteState) (t : String)
    (fs : Dict) (e : Err)
    (h : (delete_checks
        "filters cannot be empty to prevent DELETE without WHERE clause" t fs).2
      = .error e) :
    SQLiteConnection.delete w st t fs
      = (st, (delete_checks
          "filters cannot be empty to prevent DELETE without WHERE clause" t fs).1,
         .error e) := by
  simp [SQLiteConnection.delete, h]

theorem mysql_delete_early (w : World) (st : MySQLState) (t : String)
    (fs : Dict) (e : Err)
    (h : (delete_checks
        "filters cannot be empty (prevents accidental deletion of all records)" t fs).2
      = .error e) :
    MySQLConnection.delete w st t fs
      = (st, (delete_checks
          "filters cannot be empty (prevents accidental deletion of all records)" t fs).1,
         .error e) := by
  simp [MySQLConnection.delete, h]

/-- A raised ValueError result carries some message. -/
theorem isValueErr_exists {α : Type} (x : Except Err α) (h : x.isValueErr = true) :
    ∃ m, x = .error (.valueError m) := by
  cases x with
  | ok a => simp [Except.isValueErr] at h
  | error e =>
    cases e with
    | valueError m => exact ⟨m, rfl⟩
    | dbError c m => simp [Except.isValueErr] at h

/-- A trace of identifier checks performs no driver call and builds no SQL
text at all. -/
theorem validate_trace_props (tr : List Event) (id : String)
    (hev : ∀ e ∈ tr, ∃ x, e = Event.validate x) :
    ∀ e ∈ tr, Event.isDriverCall e = false ∧ id ∉ Event.builtIds e := by
  intro e he
  rcases hev e he with ⟨x, rfl⟩
  exact ⟨rfl, by simp [Event.builtIds]⟩

open DatabaseConnection in
/-- The select build phase performs no driver call and never interpolates
an invalid identifier into SQL text. -/
theorem select_trace_props (ph t : String) (cols : List String) (fs : Dict)
    (ob : Option String) (lim : Option Int) (id : String)
    (hbad : is_valid_identifier id = false) :
    ∀ e ∈ (select_build ph t cols fs ob lim).1,
      Event.isDriverCall e = false ∧ id ∉ Event.builtIds e := by
  intro e he
  have h := select_build_events ph t cols fs ob lim e he
  refine ⟨h.1, fun hmem => ?_⟩
  have h2 := h.2 id hmem
  rw [h2] at hbad
  cases hbad

open DatabaseConnection in
/-- C1, amended: on every CRUD invocation of either backend, each
identifier among the call's table name, filters, parameters and explicit
column lists is checked before any SQL text that interpolates it is built,
and an invalid identifier makes the call raise ValueError with no driver
call performed and no SQL text interpolating that identifier ever built.
In select, the base SELECT-FROM string (of previously validated
identifiers) is built before the filter keys are checked, which is the
only departure from the claim as stated. -/
theorem c1_identifier_guard (w : World) (s1 : SQLiteState) (s2 : MySQLState)
    (c : OpCall) (id : String) (hm : id ∈ OpCall.identifiers c)
    (hbad : is_valid_identifier id = false) :
    Except.isValueErr (runOp w s1 s2 c).2 = true
      ∧ ∀ e ∈ (runOp w s1 s2 c).1,
          Event.isDriverCall e = false ∧ id ∉ Event.builtIds e := by
  cases c with
  | sqliteSelect t cols fs ob lim =>
    simp only [OpCall.identifiers] at hm
    rcases select_build_shape "?" t cols fs ob lim with hok | herr
    · exact absurd (select_build_ok_valid "?" t cols fs ob lim hok id hm)
        (by simp [hbad])
    · rcases isValueErr_exists _ herr with ⟨m, he0⟩
      have hearly := sqlite_select_early w s1 t cols fs ob lim _ he0
      simp only [runOp, hearly]
      exact ⟨by rw [isValueErr_map]; exact (isValueErr_error_iff _).mpr ⟨m, rfl⟩,
        select_trace_props "?" t cols fs ob lim id hbad⟩
  | sqliteInsert pk t rows ret =>
    simp only [OpCall.identifiers] at hm
    rcases insert_checks_shape t rows with hok | herr
    · exact absurd ((insert_checks_ok t rows hok).2.1 id hm) (by simp [hbad])
    · rcases isValueErr_exists _ herr with ⟨m, he0⟩
      have hearly := sqlite_insert_early w s1 pk t rows ret _ he0
      simp only [runOp, hearly]
      exact ⟨by rw [isValueErr_map]; exact (isValueErr_error_iff _).mpr ⟨m, rfl⟩,
        validate_trace_props _ id (insert_checks_events t rows)⟩
  | sqliteUpdate t ps fs ret =>
    simp only [OpCall.identifiers] at hm
    rcases update_checks_shape t ps fs with hok | herr
    · exact absurd ((update_checks_ok t ps fs hok).2.2 id hm) (by simp [hbad])
    · rcases isValueErr_exists _ herr with ⟨m, he0⟩
      have hearly := sqlite_update_early w s1 t ps fs ret _ he0
      simp only [runOp, hearly]
      exact ⟨by rw [isValueErr_map]; exact (isValueErr_error_iff _).mpr ⟨m, rfl⟩,
        validate_trace_props _ id (update_checks_events t ps fs)⟩
  | sqliteDelete t fs =>
    simp only [OpCall.identifiers] at hm
    rcases delete_checks_shape
        "filters cannot be empty to prevent DELETE without WHERE clause" t fs
      with hok | herr
    · exact absurd ((delete_checks_ok _ t fs hok).2 id hm) (by simp [hbad])
    · rcases isValueErr_exists _ herr with ⟨m, he0⟩
      have hearly := sqlite_delete_early w s1 t fs _ he0
      simp only [runOp, hearly]
      exact ⟨by rw [isValueErr_map]; exact (isValueErr_error_iff _).mpr ⟨m, rfl⟩,
        validate_trace_props _ id (delete_checks_events _ t fs)⟩
  | mysqlSelect t cols fs ob lim =>
    simp only [OpCall.identifiers] at hm
    rcases select_build_shape "%s" t cols fs ob lim with hok | herr
    · exact absurd (select_build_ok_valid "%s" t cols fs ob lim hok id hm)
        (by simp [hbad])
    · rcases isValueErr_exists _ herr with ⟨m, he0⟩
      have hearly := mysql_select_early w s2 t cols fs ob lim _ he0
      simp only [runOp, hearly]
      exact ⟨by rw [isValueErr_map]; exact (isValueErr_error_iff _).mpr ⟨m, rfl⟩,
        select_trace_props "%s" t cols fs ob lim id hbad⟩
  | mysqlInsert pk t rows ret =>
    simp only [OpCall.identifiers] at hm
    rcases insert_checks_shape t rows with hok | herr
    · exact absurd ((insert_checks_ok t rows hok).2.1 id hm) (by simp [hbad])
    · rcases isValueErr_exists _ herr with ⟨m, he0⟩
      have hearly := mysql_insert_early w s2 pk t rows ret _ he0
      simp only [runOp, hearly]
      exact ⟨by rw [isValueErr_map]; exact (isValueErr_error_iff _).mpr ⟨m, rfl⟩,
        validate_trace_props _ id (insert_checks_events t rows)⟩
  | mysqlUpdate t ps fs ret =>
    simp only [OpCall.identifiers] at hm
    rcases update_checks_shape t ps fs with hok | herr
    · exact absurd ((update_checks_ok t ps fs hok).2.2 id hm) (by simp [hbad])
    · rcases isValueErr_exists _ herr with ⟨m, he0⟩
      have hearly := mysql_update_early w s2 t ps fs ret _ he0
      simp only [runOp, hearly]
      exact ⟨by rw [isValueErr_map]; exact (isValueErr_error_iff _).mpr ⟨m, rfl⟩,
        validate_trace_props _ id (update_checks_events t ps fs)⟩
  | mysqlDelete t fs =>
    simp only [OpCall.identifiers] at hm
    rcases delete_checks_shape
        "filters cannot be empty (prevents accidental deletion of all records)" t fs
      with hok | herr
    · exact absurd ((delete_checks_ok _ t fs hok).2 id hm) (by simp [hbad])
    · rcases isValueErr_exists _ herr with ⟨m, he0⟩
      have hearly := mysql_delete_early w s2 t fs _ he0
      simp only [runOp, hearly]
      exact ⟨by rw [isValueErr_map]; exact (isValueErr_error_iff _).mpr ⟨m, rfl⟩,
        validate_trace_props _ id (delete_checks_events _ t fs)⟩

/-- C1, counterexample to the claim as stated: in select the base
SELECT-FROM string is built before the filter keys are checked, so the
filter-key identifier of the call select(t, filters with key c) is not
validated before every SQL string is built. -/
theorem c1_validated_before_build_counterexample : ¬ claim1Stated := by
  intro h
  have h2 := (h w0 st0 my0
    (OpCall.sqliteSelect "t" [] [("c", Value.int 1)] none none) "c" (by decide)).1
  exact absurd h2 (by decide)

open DatabaseConnection in
/-- C1 witness: a delete whose filter key carries a semicolon raises a
ValueError with no driver call and no SQL text containing the key. -/
theorem c1_identifier_guard_witness :
    is_valid_identifier "bad;col" = false
    ∧ (Except.isValueErr (runOp w0 st0 my0
          (OpCall.sqliteDelete "users" [("bad;col", Value.int 1)])).2 = true
       ∧ ∀ e ∈ (runOp w0 st0 my0
          (OpCall.sqliteDelete "users" [("bad;col", Value.int 1)])).1,
            Event.isDriverCall e = false ∧ "bad;col" ∉ Event.builtIds e) :=
  ⟨by decide,
   c1_identifier_guard w0 st0 my0
     (OpCall.sqliteDelete "users" [("bad;col", Value.int 1)]) "bad;col"
     (by decide) (by decide)⟩

/-- C2: on both backends and for every connection state, table name and
row mapping, delete with an empty filter dict and update with an empty
filter dict or an empty parameter dict raise ValueError immediately, with
an empty event trace (so before any driver call), and with no override. -/
theorem c2_empty_mapping_guard (w : World) (s1 : SQLiteState) (s2 : MySQLState)
    (t : String) (ps fs : Dict) (ret : Bool) :
    SQLiteConnection.delete w s1 t []
      = (s1, [], .error (.valueError
          "filters cannot be empty to prevent DELETE without WHERE clause"))
    ∧ MySQLConnection.delete w s2 t []
      = (s2, [], .error (.valueError
          "filters cannot be empty (prevents accidental deletion of all records)"))
    ∧ SQLiteConnection.update w s1 t ps [] ret
      = (s1, [], .error (.valueError "parameters and filters cannot be empty"))
    ∧ SQLiteConnection.update w s1 t [] fs ret
      = (s1, [], .error (.valueError "parameters and filters cannot be empty"))
    ∧ MySQLConnection.update w s2 t ps [] ret
      = (s2, [], .error (.valueError "parameters and filters cannot be empty"))
    ∧ MySQLConnection.update w s2 t [] fs ret
      = (s2, [], .error (.valueError "parameters and filters cannot be empty")) := by
  refine ⟨?_, ?_, ?_, ?_, ?_, ?_⟩
  · simp [SQLiteConnection.delete, delete_checks]
  · simp [MySQLConnection.delete, delete_checks]
  · simp [SQLiteConnection.update, update_checks]
  · simp [SQLiteConnection.update, update_checks]
  · simp [MySQLConnection.update, update_checks]
  · simp [MySQLConnection.update, update_checks]

open DatabaseConnection in
/-- C4: on both backends, insert with an empty row list raises ValueError
immediately with an empty trace; insert with rows of differing key sets
raises a ValueError before any driver call (state untouched, no connect,
no execute); and when the table and columns are otherwise valid the error
is exactly the ValueError reading All rows must have the same columns. -/
theorem c4_insert_batch_guard (w : World) (s1 : SQLiteState) (s2 : MySQLState)
    (pk : Option String) (t : String) (rows : List Row) (ret : Bool) :
    (SQLiteConnection.insert w s1 pk t [] ret
        = (s1, [], .error (.valueError "rows cannot be empty"))
     ∧ MySQLConnection.insert w s2 pk t [] ret
        = (s2, [], .error (.valueError "rows cannot be empty")))
    ∧ (rowsConsistent rows = false →
        ((SQLiteConnection.insert w s1 pk t rows ret).1 = s1
         ∧ Except.isValueErr (SQLiteConnection.insert w s1 pk t rows ret).2.2 = true
         ∧ ∀ e ∈ (SQLiteConnection.insert w s1 pk t rows ret).2.1,
             Event.isDriverCall e = false)
        ∧ ((MySQLConnection.insert w s2 pk t rows ret).1 = s2
           ∧ Except.isValueErr (MySQLConnection.insert w s2 pk t rows ret).2.2 = true
           ∧ ∀ e ∈ (MySQLConnection.insert w s2 pk t rows ret).2.1,
               Event.isDriverCall e = false))
    ∧ (is_valid_identifier t = true →
       (∀ k ∈ unionKeys rows, is_valid_identifier k = true) →
       rowsConsistent rows = false →
        (SQLiteConnection.insert w s1 pk t rows ret).2.2
          = .error (.valueError "All rows must have the same columns")
        ∧ (MySQLConnection.insert w s2 pk t rows ret).2.2
          = .error (.valueError "All rows must have the same columns")) := by
  refine ⟨⟨?_, ?_⟩, ?_, ?_⟩
  · simp [SQLiteConnection.insert, insert_checks]
  · simp [MySQLConnection.insert, insert_checks]
  · intro hcons
    have herr : (insert_checks t rows).2.isValueErr = true := by
      rcases insert_checks_shape t rows with hok | herr
      · have h2 := (insert_checks_ok t rows hok).2.2
        rw [hcons] at h2; cases h2
      · exact herr
    rcases isValueErr_exists _ herr with ⟨m, he0⟩
    have e1 := sqlite_insert_early w s1 pk t rows ret _ he0
    have e2 := mysql_insert_early w s2 pk t rows ret _ he0
    refine ⟨⟨by rw [e1], by simp [e1, Except.isValueErr], ?_⟩,
            by rw [e2], by simp [e2, Except.isValueErr], ?_⟩
    · intro e he
      rw [e1] at he
      rcases insert_checks_events t rows e (by simpa using he) with ⟨x, rfl⟩
      rfl
    · intro e he
      rw [e2] at he
      rcases insert_checks_events t rows e (by simpa using he) with ⟨x, rfl⟩
      rfl
  · intro ht hu hcons
    have hr : rows.isEmpty = false := by
      cases rows with
      | nil => simp [rowsConsistent] at hcons
      | cons r rs => rfl
    have hv2 : ∀ id ∈ t :: unionKeys rows, is_valid_identifier id = true := by
      intro id hid
      rcases List.mem_cons.mp hid with rfl | h2
      · exact ht
      · exact hu id h2
    have hall := insert_checks_all t rows hr hv2
    simp only [hcons, Bool.false_eq_true, if_false] at hall
    have he0 : (insert_checks t rows).2
        = .error (.valueError "All rows must have the same columns") := by
      rw [hall]
    constructor
    · rw [sqlite_insert_early w s1 pk t rows ret _ he0]
    · rw [mysql_insert_early w s2 pk t rows ret _ he0]

/-- C4 witness: a two-row insert whose rows have different key sets is
rejected on both backends with exactly the documented message. -/
theorem c4_insert_batch_guard_witness :
    (SQLiteConnection.insert w0 st0 (some "id") "users"
        [[("a", Value.int 1)], [("b", Value.int 2)]] true).2.2
      = .error (.valueError "All rows must have the same columns")
    ∧ (MySQLConnection.insert w0 my0 (some "id") "users"
        [[("a", Value.int 1)], [("b", Value.int 2)]] true).2.2
      = .error (.valueError "All rows must have the same columns") :=
  (c4_insert_batch_guard w0 st0 my0 (some "id") "users"
      [[("a", Value.int 1)], [("b", Value.int 2)]] true).2.2
    (by decide) (by decide) (by decide)

/-- C5: scoped release on both backends never suppresses the propagating
exception (the exit hook returns False), calls the rollback hook first and
then the disconnect hook when an exception is propagating (with the driver
rollback preceding the driver close whenever a connection is live), and
calls only the disconnect hook when no exception is propagating. -/
theorem c5_scoped_exit_lifecycle (s1 : SQLiteState) (s2 : MySQLState) (exc : Bool) :
    ((SQLiteConnection.ctx_exit s1 exc).2.2 = false
     ∧ (MySQLConnection.ctx_exit s2 exc).2.2 = false)
    ∧ (exc = true →
        (SQLiteConnection.ctx_exit s1 exc).2.1
          = (Event.callRollback :: (if s1.conn.isSome then [Event.rollback] else []))
            ++ (Event.callDisconnect :: (if s1.conn.isSome then [Event.close] else []))
        ∧ (MySQLConnection.ctx_exit s2 exc).2.1
          = (Event.callRollback :: (if s2.engine.isSome then [Event.rollback] else []))
            ++ (Event.callDisconnect :: (if s2.engine.isSome then [Event.close] else [])))
    ∧ (exc = false →
        (SQLiteConnection.ctx_exit s1 exc).2.1
          = Event.callDisconnect :: (if s1.conn.isSome then [Event.close] else [])
        ∧ (MySQLConnection.ctx_exit s2 exc).2.1
          = Event.callDisconnect :: (if s2.engine.isSome then [Event.close] else [])) := by
  obtain ⟨c1, cur1, n1⟩ := s1
  obtain ⟨e2, n2⟩ := s2
  cases exc <;> cases c1 <;> cases e2 <;>
    simp [SQLiteConnection.ctx_exit, SQLiteConnection.rollback_tx,
      SQLiteConnection.disconnect_db, MySQLConnection.ctx_exit,
      MySQLConnection.rollback_tx, MySQLConnection.disconnect_db]

/-- C5 witness: exiting a live SQLite connection with an exception
propagating rolls back, then closes, and does not suppress the
exception. -/
theorem c5_scoped_exit_lifecycle_witness :
    (SQLiteConnection.ctx_exit ⟨some (0, Iso.deferred), some 1, 2⟩ true).2.1
      = [Event.callRollback, Event.rollback, Event.callDisconnect, Event.close]
    ∧ (SQLiteConnection.ctx_exit ⟨some (0, Iso.deferred), some 1, 2⟩ true).2.2
      = false := by
  have h := c5_scoped_exit_lifecycle ⟨some (0, Iso.deferred), some 1, 2⟩ my0 true
  exact ⟨by simpa using (h.2.1 rfl).1, h.1.1⟩

/-- C9: on both backends, a connect call on an already-connected object
returns the existing handle, performs no driver call and leaves the state
unchanged: no new driver connection object is created. -/
theorem c9_idempotent_connect (s1 : SQLiteState) (s2 : MySQLState) (iso : Iso)
    (h1 : Nat) (lvl : Iso) (c1 : Nat) (e1 : Nat)
    (hc : s1.conn = some (h1, lvl)) (hcur : s1.cursor = some c1)
    (he : s2.engine = some e1) :
    SQLiteConnection.connect_db s1 iso = (s1, [], h1)
    ∧ MySQLConnection.connect_db s2 = (s2, [], e1) := by
  constructor
  · simp [SQLiteConnection.connect_db, hc, hcur]
  · simp [MySQLConnection.connect_db, he]

/-- C9 witness: concrete connected states hand back their live handles. -/
theorem c9_idempotent_connect_witness :
    SQLiteConnection.connect_db ⟨some (5, Iso.deferred), some 6, 7⟩ Iso.immediate
      = (⟨some (5, Iso.deferred), some 6, 7⟩, [], 5)
    ∧ MySQLConnection.connect_db ⟨some 3, 4⟩ = (⟨some 3, 4⟩, [], 3) :=
  c9_idempotent_connect ⟨some (5, Iso.deferred), some 6, 7⟩ ⟨some 3, 4⟩
    Iso.immediate 5 Iso.deferred 6 3 rfl rfl rfl

open DatabaseConnection in
/-- C10: constructing a connection with an empty-string primary-key column
does not raise, because constructor-time validation is applied only to truthy
values, and such a connection behaves exactly as one with no primary-key
column: insert is unchanged, and with return_inserted requested it returns
nothing once the validation phase passes. -/
theorem c10_falsy_pk_column (w : World) (st : SQLiteState) (t : String)
    (rows : List Row) (ret : Bool) :
    db_init (some "") = .ok (some "")
    ∧ SQLiteConnection.insert w st (some "") t rows ret
        = SQLiteConnection.insert w st none t rows ret
    ∧ (rowsConsistent rows = true → rows.isEmpty = false →
       is_valid_identifier t = true →
       (∀ k ∈ unionKeys rows, is_valid_identifier k = true) →
       (SQLiteConnection.insert w st (some "") t rows true).2.2 = .ok none) := by
  refine ⟨rfl, ?_, ?_⟩
  · simp [SQLiteConnection.insert, pyTruthyStr]
  · intro hcons hr ht hu
    have hv2 : ∀ id ∈ t :: unionKeys rows, is_valid_identifier id = true := by
      intro id hid
      rcases List.mem_cons.mp hid with rfl | h2
      · exact ht
      · exact hu id h2
    have hall := insert_checks_all t rows hr hv2
    simp only [hcons, if_true] at hall
    simp [SQLiteConnection.insert, hall, pyTruthyStr]

/-- C10 witness: empty-string primary key passes construction and a
well-formed insert with echo requested returns nothing. -/
theorem c10_falsy_pk_column_witness :
    DatabaseConnection.db_init (some "") = .ok (some "")
    ∧ (SQLiteConnection.insert w0 st0 (some "") "users"
        [[("name", Value.str "Alice")]] true).2.2 = .ok none :=
  ⟨(c10_falsy_pk_column w0 st0 "users" [[("name", Value.str "Alice")]] true).1,
   (c10_falsy_pk_column w0 st0 "users" [[("name", Value.str "Alice")]] true).2.2
     (by decide) (by decide) (by decide) (by decide)⟩

/-- Python (max_id or 0) agrees with Option.getD 0 on integers: the only
extra falsy integer, zero, maps to zero either way. -/
theorem pyOrZero_eq_getD (m : Option Int) : pyOrZero m = m.getD 0 := by
  cases m with
  | none => rfl
  | some v =>
    by_cases hv : v = 0
    · simp [pyOrZero, hv]
    · simp [pyOrZero, hv]

open DatabaseConnection in
/-- C6: a well-formed SQLite insert with echo requested and a configured
primary-key column probes MAX(pk) and takes first_id as MAX(pk)+1 (1 for
an empty table, where the probe returns NULL), executes one batched insert
of all rows, commits, then reselects exactly the contiguous id range
first_id .. first_id+len(rows)-1 and returns that query result; and any
insert without a configured (truthy) primary-key column returns nothing
even with echo requested. -/
theorem c6_sqlite_insert_echo (w : World) (st : SQLiteState) (p t : String)
    (rows : List Row)
    (hr : rows.isEmpty = false)
    (hcons : rowsConsistent rows = true)
    (ht : is_valid_identifier t = true)
    (hu : ∀ k ∈ unionKeys rows, is_valid_identifier k = true)
    (hp : p ≠ "") :
    SQLiteConnection.insert w st (some p) t rows true
      = ((SQLiteConnection.connect_db st Iso.immediate).1,
         (Event.validate t :: (unionKeys rows).map Event.validate)
           ++ (SQLiteConnection.connect_db st Iso.immediate).2.1
           ++ [Event.buildSql (SQLiteConnection.max_sql p t) [p, t],
               Event.execute (SQLiteConnection.max_sql p t), Event.fetchone,
               Event.buildSql
                 (SQLiteConnection.insert_sql t (Dict.keys (rows.headD [])))
                 (t :: Dict.keys (rows.headD [])),
               Event.executemany
                 (SQLiteConnection.insert_sql t (Dict.keys (rows.headD [])))
                 rows.length,
               Event.commit,
               Event.buildSql (SQLiteConnection.reselect_sql t p rows.length)
                 [t, p],
               Event.readSql (SQLiteConnection.reselect_sql t p rows.length)],
         .ok (some (w.query (SQLiteConnection.reselect_sql t p rows.length)
           ((List.range rows.length).map
             (fun k => Value.int (w.maxPk.getD 0 + 1 + k))))))
    ∧ (∀ pk : Option String, pyTruthyStr pk = false →
        (SQLiteConnection.insert w st pk t rows true).2.2 = .ok none) := by
  have hv2 : ∀ id ∈ t :: unionKeys rows, is_valid_identifier id = true := by
    intro id hid
    rcases List.mem_cons.mp hid with rfl | h2
    · exact ht
    · exact hu id h2
  have hall := insert_checks_all t rows hr hv2
  simp only [hcons, if_true] at hall
  constructor
  · simp [SQLiteConnection.insert, hall, pyTruthyStr, hp, pyOrZero_eq_getD]
  · intro pk hpk
    simp [SQLiteConnection.insert, hall, hpk]

/-- C6 witness: inserting two rows into a table whose current MAX(id) is
41 reselects ids 42 and 43 and returns that result. -/
theorem c6_sqlite_insert_echo_witness :
    SQLiteConnection.insert
        ⟨fun _ _ => [], 0, 1, some 41⟩ st0 (some "id") "users"
        [[("name", Value.str "Alice")], [("name", Value.str "Bob")]] true
      = ((SQLiteConnection.connect_db st0 Iso.immediate).1,
         (Event.validate "users"
            :: (unionKeys [[("name", Value.str "Alice")],
                [("name", Value.str "Bob")]]).map Event.validate)
           ++ (SQLiteConnection.connect_db st0 Iso.immediate).2.1
           ++ [Event.buildSql (SQLiteConnection.max_sql "id" "users")
                 ["id", "users"],
               Event.execute (SQLiteConnection.max_sql "id" "users"),
               Event.fetchone,
               Event.buildSql (SQLiteConnection.insert_sql "users" ["name"])
                 ["users", "name"],
               Event.executemany (SQLiteConnection.insert_sql "users" ["name"]) 2,
               Event.commit,
               Event.buildSql (SQLiteConnection.reselect_sql "users" "id" 2)
                 ["users", "id"],
               Event.readSql (SQLiteConnection.reselect_sql "users" "id" 2)],
         .ok (some [])) := by
  have h := (c6_sqlite_insert_echo ⟨fun _ _ => [], 0, 1, some 41⟩ st0 "id" "users"
    [[("name", Value.str "Alice")], [("name", Value.str "Bob")]]
    (by decide) (by decide) (by decide) (by decide) (by decide)).1
  simpa using h

/-- C7, counterexample: on MySQL an update with echo requested whose WHERE
clause matches zero rows (driver row count 0) returns None, the no-result
value, not an empty tabular result as the claim states for both
backends. -/
theorem c7_mysql_zero_match_counterexample :
    (MySQLConnection.update w0 my0 "users" [("age", Value.int 31)]
        [("name", Value.str "Alice")] true).2.2 = .ok none
    ∧ (MySQLConnection.update w0 my0 "users" [("age", Value.int 31)]
        [("name", Value.str "Alice")] true).2.2 ≠ .ok (some ([] : Df)) := by
  have h : (MySQLConnection.update w0 my0 "users" [("age", Value.int 31)]
      [("name", Value.str "Alice")] true).2.2 = .ok none := rfl
  exact ⟨h, by rw [h]; simp⟩

open DatabaseConnection in
/-- C7, amended: a well-formed update with echo requested whose WHERE
clause matches zero rows returns an empty tabular result on SQLite (the
RETURNING fetch comes back empty) but returns the no-result value None on
MySQL (the driver-reported row count 0 skips the reselect). -/
theorem c7_zero_match_update (w : World) (s1 : SQLiteState) (s2 : MySQLState)
    (t : String) (ps fs : Dict)
    (hps : ps.isEmpty = false) (hfs : fs.isEmpty = false)
    (hv : ∀ id ∈ t :: (Dict.keys ps ++ Dict.keys fs),
      is_valid_identifier id = true) :
    (w.query (SQLiteConnection.update_sql t ps fs true).1
        (SQLiteConnection.update_sql t ps fs true).2 = [] →
      (SQLiteConnection.update w s1 t ps fs true).2.2 = .ok (some []))
    ∧ (w.rowcount = 0 →
      (MySQLConnection.update w s2 t ps fs true).2.2 = .ok none) := by
  have hall := update_checks_all t ps fs hps hfs hv
  constructor
  · intro hq
    simp [SQLiteConnection.update, hall, hq]
  · intro hrc
    simp [MySQLConnection.update, hall, hrc]

/-- C7 witness: with a driver returning no rows and row count zero, the
SQLite update yields an empty tabular result and the MySQL update yields
None. -/
theorem c7_zero_match_update_witness :
    (SQLiteConnection.update w0 st0 "users" [("age", Value.int 31)]
        [("name", Value.str "Alice")] true).2.2 = .ok (some [])
    ∧ (MySQLConnection.update w0 my0 "users" [("age", Value.int 31)]
        [("name", Value.str "Alice")] true).2.2 = .ok none := by
  have h := c7_zero_match_update w0 st0 my0 "users" [("age", Value.int 31)]
    [("name", Value.str "Alice")] (by decide) (by decide) (by decide)
  exact ⟨h.1 rfl, h.2 rfl⟩

/-- C8, counterexample: an insert on a connection already opened with
DEFERRED isolation reuses it: the state (holding the DEFERRED connection)
is unchanged, no connect ever happens during the call, and yet the batched
insert is executed.  The claim that every insert opens its connection with
IMMEDIATE isolation regardless of prior state is therefore false. -/
theorem c8_immediate_isolation_counterexample :
    (SQLiteConnection.insert w0 stDeferred (some "id") "users"
        [[("name", Value.str "Alice")]] true).1 = stDeferred
    ∧ ((SQLiteConnection.insert w0 stDeferred (some "id") "users"
          [[("name", Value.str "Alice")]] true).2.1.all
        (fun e => !(Event.isConnect e)) = true)
    ∧ Event.executemany (SQLiteConnection.insert_sql "users" ["name"]) 1
        ∈ (SQLiteConnection.insert w0 stDeferred (some "id") "users"
            [[("name", Value.str "Alice")]] true).2.1 := by
  refine ⟨by decide, by decide, by decide⟩

/-- Identifier checks survive no driver-call filter. -/
theorem filter_driver_validate (l : List String) :
    (l.map Event.validate).filter Event.isDriverCall = [] := by
  induction l with
  | nil => rfl
  | cons a r ih => simp [Event.isDriverCall, ih]

/-- Identifier checks are not connection openings. -/
theorem all_validate_not_connect (l : List String) :
    (l.map Event.validate).all (fun e => !(Event.isConnect e)) = true := by
  induction l with
  | nil => rfl
  | cons a r ih => simp [Event.isConnect, ih]

open DatabaseConnection in
/-- C8, amended: a well-formed SQLite insert requests IMMEDIATE isolation
from the connection helper: when the connection is not yet open, the very
first driver call of the insert is the opening of the connection with
IMMEDIATE isolation, before the batched insert executes; when the
connection is already open, the insert reuses it unchanged, with whatever
isolation it was opened with, and never opens a new one. -/
theorem c8_immediate_isolation (w : World) (st : SQLiteState)
    (pk : Option String) (t : String) (rows : List Row) (ret : Bool)
    (hr : rows.isEmpty = false) (hcons : rowsConsistent rows = true)
    (ht : is_valid_identifier t = true)
    (hu : ∀ k ∈ unionKeys rows, is_valid_identifier k = true) :
    (st.conn = none → st.cursor = none →
      ((SQLiteConnection.insert w st pk t rows ret).2.1.filter
          Event.isDriverCall).head? = some (Event.connect Iso.immediate)
      ∧ Event.executemany
          (SQLiteConnection.insert_sql t (Dict.keys (rows.headD [])))
          rows.length
        ∈ (SQLiteConnection.insert w st pk t rows ret).2.1)
    ∧ (∀ h lvl cur, st.conn = some (h, lvl) → st.cursor = some cur →
        (SQLiteConnection.insert w st pk t rows ret).1 = st
        ∧ ((SQLiteConnection.insert w st pk t rows ret).2.1.all
            (fun e => !(Event.isConnect e)) = true)) := by
  have hv2 : ∀ id ∈ t :: unionKeys rows, is_valid_identifier id = true := by
    intro id hid
    rcases List.mem_cons.mp hid with rfl | h2
    · exact ht
    · exact hu id h2
  have hall := insert_checks_all t rows hr hv2
  simp only [hcons, if_true] at hall
  constructor
  · intro hc hcur
    have hconn : SQLiteConnection.connect_db st Iso.immediate
        = (⟨some (st.counter, Iso.immediate), some (st.counter + 1),
            st.counter + 2⟩,
           [Event.connect Iso.immediate,
            Event.execute "PRAGMA foreign_keys = ON"], st.counter) := by
      simp [SQLiteConnection.connect_db, hc, hcur]
    rcases Bool.eq_false_or_eq_true (ret && pyTruthyStr pk) with hd | hd <;>
      simp [SQLiteConnection.insert, hall, hconn, hd, filter_driver_validate,
        Event.isDriverCall]
  · intro h lvl cur hc hcur
    have hconn : SQLiteConnection.connect_db st Iso.immediate = (st, [], h) := by
      simp [SQLiteConnection.connect_db, hc, hcur]
    rcases Bool.eq_false_or_eq_true (ret && pyTruthyStr pk) with hd | hd <;>
      simp [SQLiteConnection.insert, hall, hconn, hd, all_validate_not_connect,
        Event.isConnect]

open DatabaseConnection in
/-- C8 witness: from a fresh state, the first driver call of an insert is
the IMMEDIATE-isolation connection opening, and the batched insert runs. -/
theorem c8_immediate_isolation_witness :
    ((SQLiteConnection.insert w0 st0 (some "id") "users"
        [[("name", Value.str "Alice")]] true).2.1.filter
      Event.isDriverCall).head? = some (Event.connect Iso.immediate)
    ∧ Event.executemany (SQLiteConnection.insert_sql "users" ["name"]) 1
        ∈ (SQLiteConnection.insert w0 st0 (some "id") "users"
            [[("name", Value.str "Alice")]] true).2.1 := by
  have h := (c8_immediate_isolation w0 st0 (some "id") "users"
    [[("name", Value.str "Alice")]] true
    (by decide) (by decide) (by decide) (by decide)).1 rfl rfl
  simpa using h
